import Mathlib

/-! Shallow embedding of the MPStats analyzer scoring and validation logic
(src/core/scoring_engine.py, src/core/data_validator.py, src/config.py,
src/core/file_processor.py, src/components/file_uploader.py, src/app.py).

Modelling conventions:
- A pandas DataFrame is a Table: a list of column names plus a list of rows.
  A row assigns a cell value to every column name; only the names listed in
  cols count as present.  Cell values are exact rationals (numeric cells) or
  dates carrying year, month and an absolute day index.  Tables are modelled
  without NaN cells, so every isna count in the source is zero here and
  dropna keeps every row.
- Python exceptions are modelled through Option-valued column accessors:
  they return none exactly where the corresponding pandas operation raises
  (KeyError on a missing column, TypeError when a date-typed column meets an
  arithmetic comparison or aggregation that needs numbers, AttributeError
  when dt-accessors or day arithmetic meet a non-date column).  The
  except-branches of the source then produce the recorded error value.
- float arithmetic is modelled by exact rational arithmetic.  The one NaN
  the source manufactures (sample std of fewer than two values, stock
  module) is modelled explicitly: every comparison against it is false.
- int(x) on a nonnegative float is the floor; on a negative one, truncation
  toward zero (pyInt below).
- Purely presentational fields of the analysis dictionaries (rounded copies
  of numbers, top-query listings, interpretation strings, recommendation
  texts) are not modelled; scores, error markers and the fields the
  validation and scoring rules read are.
-/

unseal Rat.mul Rat.inv Rat.add Rat.sub

structure PyDate where
  year : ℤ
  month : ℤ
  dayIdx : ℤ
  deriving DecidableEq

inductive Val where
  | num (q : ℚ)
  | date (d : PyDate)
  deriving DecidableEq

def Val.asNum? : Val → Option ℚ
  | num q => some q
  | date _ => none

def Val.asDate? : Val → Option PyDate
  | num _ => none
  | date d => some d

/-- Applies a partial reading function to every element, failing when any
single element fails. -/
def mapOption {α β : Type} (f : α → Option β) : List α → Option (List β)
  | [] => some []
  | a :: l =>
    match f a, mapOption f l with
    | some b, some bs => some (b :: bs)
    | _, _ => none

structure Table where
  cols : List String
  rows : List (String → Val)

def Table.colVals (t : Table) (c : String) : List Val :=
  t.rows.map (fun r => r c)

/-- Reads a column as numbers: none when the column is absent (KeyError) or
contains a date cell (the object or datetime dtype makes the numeric
comparisons and aggregations of the source raise). -/
def Table.getNumCol (t : Table) (c : String) : Option (List ℚ) :=
  if c ∈ t.cols then mapOption Val.asNum? (t.colVals c) else none

/-- Reads a column as dates: none when the column is absent or contains a
numeric cell (dt-accessors and day arithmetic raise on such columns). -/
def Table.getDateCol (t : Table) (c : String) : Option (List PyDate) :=
  if c ∈ t.cols then mapOption Val.asDate? (t.colVals c) else none

/-- In-place column assignment, df brackets c equals vs: appends the name
when new and rewrites the cell in every row. -/
def Table.setCol (t : Table) (c : String) (vs : List Val) : Table :=
  { cols := if c ∈ t.cols then t.cols else t.cols ++ [c]
    rows := (t.rows.zip vs).map (fun p => fun c2 => if c2 = c then p.2 else p.1 c2) }

def listMean (l : List ℚ) : ℚ :=
  l.sum / (l.length : ℚ)

def listMedian (l : List ℚ) : ℚ :=
  let s := l.insertionSort (fun a b => a ≤ b)
  let n := s.length
  if n % 2 = 1 then s.getD (n / 2) 0
  else (s.getD (n / 2 - 1) 0 + s.getD (n / 2) 0) / 2

/-- Index of the first maximum of a nonempty list (idxmax). -/
def idxOfMaxFrom (bv : ℚ) (best i : ℕ) : List ℚ → ℕ
  | [] => best
  | x :: xs => if bv < x then idxOfMaxFrom x i (i + 1) xs else idxOfMaxFrom bv best (i + 1) xs

def idxOfMax : List ℚ → ℕ
  | [] => 0
  | x :: xs => idxOfMaxFrom x 0 1 xs

def maxListZ : List ℤ → ℤ
  | [] => 0
  | x :: xs => xs.foldl max x

def minListZ : List ℤ → ℤ
  | [] => 0
  | x :: xs => xs.foldl min x

/-- Python int() applied to an exact value: truncation toward zero. -/
def pyInt (q : ℚ) : ℤ :=
  if 0 ≤ q then ⌊q⌋ else -⌊-q⌋

/-! Column-name constants, from config DATA_FIELDS and the source. -/

def cMonth : String := "Месяц"
def cSales : String := "Продажи"
def cRevenue : String := "Выручка, ₽"
def cProducts : String := "Товары"
def cProductsWithSales : String := "Товары с продажами"
def cBrands : String := "Бренды"
def cBrandsWithSales : String := "Бренды с продажами"
def cSellers : String := "Продавцы"
def cSellersWithSales : String := "Продавцы с продажами"
def cRevenuePerProduct : String := "Выручка на товар, ₽"
def cAvgCheck : String := "Средний чек, ₽"
def cYear : String := "Год"
def cMonthNum : String := "Месяц_номер"
def cKeyword : String := "Ключевое слово"
def cFreqWB : String := "Частота WB"
def cProductsInQuery : String := "Товаров в запросе"
def cCoef : String := "Коэффициент_спрос_предложение"
def cFrom : String := "От"
def cTo : String := "До"
def cDate : String := "Дата"
def cStock : String := "Остаток"
def cCatPos : String := "Category position avg"
def cSearchCpm : String := "Search cpm avg"
def cFinalPrice : String := "Final price"
def cSKU : String := "SKU"

/-! Scoring configuration, from src/config.py. -/

def TREND_THRESHOLDS_excellent : ℚ := 10
def TREND_THRESHOLDS_good : ℚ := 0
def TREND_THRESHOLDS_stable : ℚ := -5

def ADS_THRESHOLDS_excellent : ℚ := 4
def ADS_THRESHOLDS_good : ℚ := 3
def ADS_THRESHOLDS_average : ℚ := 2
def ADS_THRESHOLDS_poor : ℚ := 1

def TOTAL_SCORE_RANGES : List (String × ℤ × ℤ) :=
  [("excellent", 16, 20), ("good", 11, 15), ("average", 6, 10), ("poor", 1, 5)]

def fallbackRating : String := "poor"

/-- ScoringEngine._get_niche_rating: first matching range, fallback poor. -/
def get_niche_rating (total : ℤ) : String :=
  match TOTAL_SCORE_RANGES.find? (fun p => decide (p.2.1 ≤ total ∧ total ≤ p.2.2)) with
  | some p => p.1
  | none => fallbackRating

/-- ScoringEngine._get_ratio_score. -/
def get_ratio_score (r : ℚ) : ℤ :=
  if ADS_THRESHOLDS_excellent ≤ r then 4
  else if ADS_THRESHOLDS_good ≤ r then 3
  else if ADS_THRESHOLDS_average ≤ r then 2
  else if ADS_THRESHOLDS_poor ≤ r then 1
  else 0

/-! Query module, ScoringEngine._calculate_query_score. -/

inductive QErr where
  | missingCoefficient
  | exceptionRaised
  deriving DecidableEq

structure QueryAnalysis where
  total_queries : ℕ
  effective_queries : ℕ
  score : ℤ
  error : Option QErr
  deriving DecidableEq

/-- The efficiency-percentage buckets hardcoded on lines 199 to 206. -/
def query_efficiency_score (pct : ℚ) : ℤ :=
  if 20 ≤ pct then 4
  else if 10 ≤ pct then 3
  else if 5 ≤ pct then 2
  else 1

def calculate_query_score (t : Table) : ℤ × QueryAnalysis :=
  if cCoef ∈ t.cols then
    match t.getNumCol cCoef with
    | none => (0, ⟨t.rows.length, 0, 0, some QErr.exceptionRaised⟩)
    | some ks =>
      let eff := ks.countP (fun k => decide (2 ≤ k))
      if cKeyword ∈ t.cols ∧ cFreqWB ∈ t.cols ∧ cProductsInQuery ∈ t.cols then
        if t.rows.length = 0 then
          (0, ⟨0, eff, 0, some QErr.exceptionRaised⟩)
        else
          let pct := ((eff : ℚ) / (t.rows.length : ℚ)) * 100
          let s := query_efficiency_score pct
          (s, ⟨t.rows.length, eff, s, none⟩)
      else (0, ⟨t.rows.length, eff, 0, some QErr.exceptionRaised⟩)
  else (0, ⟨t.rows.length, 0, 0, some QErr.missingCoefficient⟩)

/-! Price module, ScoringEngine._calculate_price_score. -/

inductive PErr where
  | missingRevenueColumn
  | exceptionRaised
  deriving DecidableEq

structure PriceAnalysis where
  low_competition_count : ℕ
  score : ℤ
  error : Option PErr
  deriving DecidableEq

/-- The low-competition-segment-count buckets of lines 264 to 271. -/
def segment_count_score (cnt : ℕ) : ℤ :=
  if 3 ≤ cnt then 4
  else if 2 ≤ cnt then 3
  else if 1 ≤ cnt then 2
  else 1

def calculate_price_score (t : Table) : ℤ × PriceAnalysis :=
  if cRevenuePerProduct ∈ t.cols then
    match t.getNumCol cRevenuePerProduct with
    | none => (0, ⟨0, 0, some PErr.exceptionRaised⟩)
    | some revs =>
      if revs.length = 0 then (0, ⟨0, 0, some PErr.exceptionRaised⟩)
      else if cFrom ∈ t.cols ∧ cTo ∈ t.cols then
        let med := listMedian revs
        if cSellers ∈ t.cols then
          match t.getNumCol cSellers with
          | none => (0, ⟨0, 0, some PErr.exceptionRaised⟩)
          | some svs =>
            let medS := listMedian svs
            let cnt := (revs.zip svs).countP (fun p => decide (med < p.1 ∧ p.2 < medS))
            (segment_count_score cnt, ⟨cnt, segment_count_score cnt, none⟩)
        else
          let cnt := revs.countP (fun r => decide (med < r))
          (segment_count_score cnt, ⟨cnt, segment_count_score cnt, none⟩)
      else (0, ⟨0, 0, some PErr.exceptionRaised⟩)
  else (0, ⟨0, 0, some PErr.missingRevenueColumn⟩)

/-! Stock module, ScoringEngine._calculate_stock_score.  The function
assigns the year and month columns in place, so it returns the updated
table next to the score. -/

inductive SErr where
  | missingColumns
  | exceptionRaised
  deriving DecidableEq

structure StockAnalysis where
  score : ℤ
  error : Option SErr
  deriving DecidableEq

def sampleVar (l : List ℚ) : ℚ :=
  (l.map (fun x => (x - listMean l) ^ 2)).sum / ((l.length : ℚ) - 1)

/-- Encodes cv_stock less than c.  With a positive mean and at least two
values, std / mean < c is equivalent to var < c ^ 2 * mean ^ 2; with one
value the sample std is NaN and the comparison is false; with a
nonpositive mean the source sets cv_stock to zero, making it true. -/
def cvLt (l : List ℚ) (c : ℚ) : Bool :=
  if 0 < listMean l then
    if 2 ≤ l.length then decide (sampleVar l < c ^ 2 * (listMean l) ^ 2) else false
  else true

def calculate_stock_score (t : Table) : ℤ × StockAnalysis × Table :=
  if cStock ∈ t.cols ∧ cDate ∈ t.cols then
    match t.getDateCol cDate with
    | none => (0, ⟨0, some SErr.exceptionRaised⟩, t)
    | some ds =>
      let t2 := (t.setCol cYear (ds.map (fun d => Val.num d.year))).setCol cMonth
        (ds.map (fun d => Val.num d.month))
      match t2.getNumCol cStock with
      | none => (0, ⟨0, some SErr.exceptionRaised⟩, t2)
      | some stocks =>
        if stocks.length = 0 then (0, ⟨0, some SErr.exceptionRaised⟩, t2)
        else
          let zr := ((stocks.countP (fun x => decide (x = 0)) : ℚ) / (stocks.length : ℚ)) * 100
          let s : ℤ :=
            if cvLt stocks (3 / 10) && decide (zr < 10) then 4
            else if cvLt stocks (1 / 2) && decide (zr < 20) then 3
            else if cvLt stocks (7 / 10) && decide (zr < 30) then 2
            else 1
          (s, ⟨s, none⟩, t2)
  else (0, ⟨0, some SErr.missingColumns⟩, t)

/-! Ads module, ScoringEngine._calculate_ads_score. -/

inductive AErr where
  | exceptionRaised
  | notEnoughTopProducts
  | nameErrorAvgCmpTop10
  deriving DecidableEq

structure AdsAnalysis where
  score : ℤ
  error : Option AErr
  deriving DecidableEq

def calculate_ads_score (t : Table) : ℤ × AdsAnalysis :=
  match t.getNumCol cCatPos with
  | none => (0, ⟨0, some AErr.exceptionRaised⟩)
  | some poss =>
    let n10 := poss.countP (fun p => decide (p ≤ 10))
    let n100 := poss.countP (fun p => decide (p ≤ 100))
    if n10 = 0 ∨ n100 = 0 then (0, ⟨0, some AErr.notEnoughTopProducts⟩)
    else
      -- Lines 364 to 365 compute the top-10 mean cpm and mean price; line 366
      -- then evaluates avg_price_top10 / avg_cmp_top10, but avg_cmp_top10 was
      -- never assigned (line 364 binds avg_cpm_top10), so a NameError is
      -- raised unconditionally and caught by the except-branch, which records
      -- the message and leaves the score at 0.  When the cpm or price column
      -- is missing or non-numeric, lines 364 to 365 already raise with the
      -- same final score.
      if cSearchCpm ∈ t.cols ∧ cFinalPrice ∈ t.cols then
        match t.getNumCol cSearchCpm, t.getNumCol cFinalPrice with
        | some _, some _ => (0, ⟨0, some AErr.nameErrorAvgCmpTop10⟩)
        | _, _ => (0, ⟨0, some AErr.exceptionRaised⟩)
      else (0, ⟨0, some AErr.exceptionRaised⟩)

/-! Trend module, ScoringEngine._calculate_trend_score and
_calculate_yoy_score.  The function assigns the year and month-number
columns in place, so it returns the updated table next to the score. -/

inductive YoyInfo where
  | insufficientData
  | noChanges
  | computed (avg : ℚ)
  | failed
  deriving DecidableEq

inductive TErr where
  | exceptionRaised
  deriving DecidableEq

structure TrendAnalysis where
  peak_months : List (ℤ × ℤ)
  yoy_changes : List (String × YoyInfo)
  score_breakdown : List (String × ℤ)
  total_score : ℤ
  error : Option TErr
  deriving DecidableEq

/-- _calculate_yoy_score after the year-value pairs of the metric column
have been read; its internal except-branch is the failed case of
trend_metric_entry below. -/
def yoy_score_from_pairs (pairs : List (ℤ × ℚ)) : ℤ × YoyInfo :=
  let sortedYears := ((pairs.map Prod.fst).dedup).insertionSort (fun a b => a ≤ b)
  let means := sortedYears.map (fun y =>
    listMean ((pairs.filter (fun p => decide (p.1 = y))).map Prod.snd))
  if means.length < 2 then (2, YoyInfo.insufficientData)
  else
    let changes := (means.zip means.tail).filterMap (fun pq =>
      if 0 < pq.1 then some (((pq.2 - pq.1) / pq.1) * 100) else none)
    if changes.length = 0 then (2, YoyInfo.noChanges)
    else
      let avg := listMean changes
      let s : ℤ :=
        if TREND_THRESHOLDS_excellent ≤ avg then 4
        else if TREND_THRESHOLDS_good ≤ avg then 3
        else if TREND_THRESHOLDS_stable ≤ avg then 2
        else 1
      (s, YoyInfo.computed avg)

/-- One iteration of the metrics loop: a non-numeric metric column makes the
yearly mean inside _calculate_yoy_score raise, and its except-branch
returns score 1. -/
def trend_metric_entry (t2 : Table) (years : List ℤ) (c : String) : ℤ × YoyInfo :=
  match t2.getNumCol c with
  | none => (1, YoyInfo.failed)
  | some vs => yoy_score_from_pairs (years.zip vs)

def trendMetricCols : List String :=
  [cBrandsWithSales, cBrands, cProductsWithSales, cProducts, cAvgCheck]

/-- Peak sales month per year (first-appearance year order, idxmax). -/
def trend_peak_months (years months : List ℤ) (sales : List ℚ) : List (ℤ × ℤ) :=
  years.dedup.map (fun y =>
    let group := (years.zip (months.zip sales)).filter (fun p => decide (p.1 = y))
    (y, (group.map (fun p => p.2.1)).getD (idxOfMax (group.map (fun p => p.2.2))) 0))

/-- The metrics loop of _calculate_trend_score: one entry per metric column
present in the (already mutated) table. -/
def trend_contribs (t2 : Table) (years : List ℤ) : List (String × ℤ × YoyInfo) :=
  (trendMetricCols.filter (fun c => decide (c ∈ t2.cols))).map
    (fun c => (c, trend_metric_entry t2 years c))

/-- Final trend score: int of the numpy mean of the metric scores, zero
when no metric column was present. -/
def trend_final_score (t2 : Table) (years : List ℤ) : ℤ :=
  let scores : List ℤ := (trend_contribs t2 years).map (fun p => p.2.1)
  if scores.isEmpty then 0 else pyInt (listMean (scores.map (fun z => ((z : ℤ) : ℚ))))

def trend_metrics_part (t2 : Table) (years : List ℤ) (peaks : List (ℤ × ℤ)) :
    ℤ × TrendAnalysis × Table :=
  (trend_final_score t2 years,
   ⟨peaks, (trend_contribs t2 years).map (fun p => (p.1, p.2.2)),
    (trend_contribs t2 years).map (fun p => (p.1, p.2.1)), trend_final_score t2 years, none⟩,
   t2)

def calculate_trend_score (t : Table) : ℤ × TrendAnalysis × Table :=
  match t.getDateCol cMonth with
  | none => (0, ⟨[], [], [], 0, some TErr.exceptionRaised⟩, t)
  | some ds =>
    let t2 := (t.setCol cYear (ds.map (fun d => Val.num d.year))).setCol cMonthNum
      (ds.map (fun d => Val.num d.month))
    let years := ds.map PyDate.year
    if cSales ∈ t2.cols then
      match t2.getNumCol cSales with
      | none => (0, ⟨[], [], [], 0, some TErr.exceptionRaised⟩, t2)
      | some sales =>
        trend_metrics_part t2 years (trend_peak_months years (ds.map PyDate.month) sales)
    else trend_metrics_part t2 years []

/-! ScoringEngine.calculate_total_score.  loaded_data is a mapping keyed by
the five report types; the trend and stock modules mutate their tables, so
the updated mapping is returned next to the results. -/

structure LoadedData where
  trends : Option Table
  queries : Option Table
  price : Option Table
  days : Option Table
  products : Option Table

structure ScoringResults where
  trend_score : ℤ
  query_score : ℤ
  price_score : ℤ
  stock_score : ℤ
  ads_score : ℤ
  total_score : ℤ
  niche_rating : String
  trends_analysis : Option TrendAnalysis
  queries_analysis : Option QueryAnalysis
  price_analysis : Option PriceAnalysis
  stock_analysis : Option StockAnalysis
  ads_analysis : Option AdsAnalysis

def calculate_total_score (d : LoadedData) : ScoringResults × LoadedData :=
  let tr := d.trends.map calculate_trend_score
  let qu := d.queries.map calculate_query_score
  let pr := d.price.map calculate_price_score
  let st := d.days.map calculate_stock_score
  let ad := d.products.map calculate_ads_score
  let ts := (tr.map (fun x => x.1)).getD 0
  let qs := (qu.map (fun x => x.1)).getD 0
  let ps := (pr.map (fun x => x.1)).getD 0
  let ss := (st.map (fun x => x.1)).getD 0
  let ads0 := (ad.map (fun x => x.1)).getD 0
  let total := ts + qs + ps + ss + ads0
  ({ trend_score := ts, query_score := qs, price_score := ps, stock_score := ss,
     ads_score := ads0, total_score := total, niche_rating := get_niche_rating total,
     trends_analysis := tr.map (fun x => x.2.1),
     queries_analysis := qu.map (fun x => x.2),
     price_analysis := pr.map (fun x => x.2),
     stock_analysis := st.map (fun x => x.2.1),
     ads_analysis := ad.map (fun x => x.2) },
   { trends := tr.map (fun x => x.2.2), queries := d.queries, price := d.price,
     days := st.map (fun x => x.2.2), products := d.products })

/-! Data validator, src/core/data_validator.py.  Validation messages are
modelled as structured values, one constructor per message template of the
source; validationException covers the generic message appended by the
except-branch of each per-type validator.  Each validator returns its
result dictionary next to the table it was given: the source never assigns
into the frame, it only binds filtered or sorted copies to locals. -/

/-- The per-report-type validators, used to tag the generic
except-branch message. -/
inductive VSection where
  | trends
  | queries
  | price
  | days
  | products
  deriving DecidableEq

inductive VMsg where
  | missingColumns (cs : List String)
  | periodTooShort
  | periodTooLong
  | negativeValues (c : String) (n : ℕ)
  | manyZeros (c : String)
  | inconsistentProducts (n : ℕ)
  | duplicateKeywords (n : ℕ)
  | zeroFrequency (n : ℕ)
  | negativeFrequency (n : ℕ)
  | zeroProducts (n : ℕ)
  | noEffectiveQueries
  | fewEffectiveQueries (n : ℕ)
  | invalidRanges (n : ℕ)
  | overlappingRanges (n : ℕ)
  | zeroRevenue (n : ℕ)
  | negativeRevenue (n : ℕ)
  | inconsistentSegments (n : ℕ)
  | dateGaps (n : ℕ)
  | negativeStock (n : ℕ)
  | manyZeroStockDays (z n : ℕ)
  | duplicateSku (n : ℕ)
  | zeroPrice (n : ℕ)
  | negativePrice (n : ℕ)
  | fewAdsProducts
  | manyAdsProducts
  | noTop10
  | fewTop100 (n : ℕ)
  | validationException (who : VSection)
  deriving DecidableEq

structure VResult where
  valid : Bool
  warnings : List VMsg
  errors : List VMsg
  records_count : ℕ
  deriving DecidableEq

def requiredTrendsCols : List String :=
  [cMonth, cSales, cRevenue, cProducts, cProductsWithSales, cBrands, cBrandsWithSales,
   cSellers, cSellersWithSales, cRevenuePerProduct, cAvgCheck]

/-- The date block of _validate_trends_data: the isna count is zero in the
NaN-free model, and the day-span warnings need the column to be
date-typed, otherwise the subtraction of the extremes raises.  The result
is the warnings plus a raised flag. -/
def trends_month_block (t : Table) : List VMsg × Bool :=
  if cMonth ∈ t.cols then
    if t.rows.isEmpty then ([], false)
    else
      match t.getDateCol cMonth with
      | none => ([], true)
      | some ds =>
        let spanDays := maxListZ (ds.map PyDate.dayIdx) - minListZ (ds.map PyDate.dayIdx)
        (if spanDays < 30 then [VMsg.periodTooShort]
         else if 1095 < spanDays then [VMsg.periodTooLong]
         else [], false)
  else ([], false)

/-- The numeric-sanity loop shared shape: negatives and an excess of zeros
per present column; a date-typed column raises at the first comparison. -/
def numeric_sanity_checks (t : Table) : List String → List VMsg × Bool
  | [] => ([], false)
  | c :: cs =>
    if c ∈ t.cols then
      match t.getNumCol c with
      | none => ([], true)
      | some vs =>
        let negs := vs.countP (fun v => decide (v < 0))
        let zeros := vs.countP (fun v => decide (v = 0))
        let w := (if 0 < negs then [VMsg.negativeValues c negs] else []) ++
          (if t.rows.length < 2 * zeros then [VMsg.manyZeros c] else [])
        let rest := numeric_sanity_checks t cs
        (w ++ rest.1, rest.2)
    else numeric_sanity_checks t cs

/-- Rows where products-with-sales exceeds products; none when either
column is date-typed and the comparison raises. -/
def products_consistency_check (t : Table) : Option ℕ :=
  match t.getNumCol cProducts, t.getNumCol cProductsWithSales with
  | some ps, some pws => some ((pws.zip ps).countP (fun p => decide (p.2 < p.1)))
  | _, _ => none

def validate_trends_data (t : Table) : VResult × Table :=
  let missing := requiredTrendsCols.filter (fun c => decide (c ∉ t.cols))
  let e0 : List VMsg := if missing.isEmpty then [] else [VMsg.missingColumns missing]
  let mb := trends_month_block t
  if mb.2 then
    ({ valid := false, warnings := mb.1,
       errors := e0 ++ [VMsg.validationException VSection.trends],
       records_count := t.rows.length }, t)
  else
    let nb := numeric_sanity_checks t [cSales, cRevenue, cProducts, cBrands]
    if nb.2 then
      ({ valid := false, warnings := mb.1 ++ nb.1,
         errors := e0 ++ [VMsg.validationException VSection.trends],
         records_count := t.rows.length }, t)
    else
      if cProducts ∈ t.cols ∧ cProductsWithSales ∈ t.cols then
        match products_consistency_check t with
        | none =>
          ({ valid := false, warnings := mb.1 ++ nb.1,
             errors := e0 ++ [VMsg.validationException VSection.trends],
             records_count := t.rows.length }, t)
        | some k =>
          let e1 := if 0 < k then [VMsg.inconsistentProducts k] else []
          ({ valid := (e0 ++ e1).isEmpty, warnings := mb.1 ++ nb.1, errors := e0 ++ e1,
             records_count := t.rows.length }, t)
      else
        ({ valid := e0.isEmpty, warnings := mb.1 ++ nb.1, errors := e0,
           records_count := t.rows.length }, t)

/-- The frequency block of _validate_queries_data: the zero-equality count
never raises, the negative comparison raises on a date-typed column.
Result: warnings, errors, raised. -/
def queries_freq_block (t : Table) : List VMsg × List VMsg × Bool :=
  if cFreqWB ∈ t.cols then
    let z := (t.colVals cFreqWB).countP (fun v => decide (v = Val.num 0))
    let wz := if 0 < z then [VMsg.zeroFrequency z] else []
    match t.getNumCol cFreqWB with
    | none => (wz, [], true)
    | some vs =>
      let negs := vs.countP (fun v => decide (v < 0))
      (wz, if 0 < negs then [VMsg.negativeFrequency negs] else [], false)
  else ([], [], false)

/-- The effective-queries block: guarded by the frequency and
products-in-query columns, it reads the coefficient column, raising when
that column is absent (KeyError) or date-typed. -/
def queries_effective_block (t : Table) : List VMsg × Bool :=
  if cFreqWB ∈ t.cols ∧ cProductsInQuery ∈ t.cols then
    if cCoef ∈ t.cols then
      match t.getNumCol cCoef with
      | none => ([], true)
      | some ks =>
        let eff := ks.countP (fun k => decide (2 ≤ k))
        (if eff = 0 then [VMsg.noEffectiveQueries]
         else if eff < 10 then [VMsg.fewEffectiveQueries eff]
         else [], false)
    else ([], true)
  else ([], false)

def validate_queries_data (t : Table) : VResult × Table :=
  let missing := [cKeyword, cFreqWB, cProductsInQuery].filter (fun c => decide (c ∉ t.cols))
  let e0 : List VMsg := if missing.isEmpty then [] else [VMsg.missingColumns missing]
  let w1 : List VMsg :=
    if cKeyword ∈ t.cols then
      let dups := t.rows.length - (t.colVals cKeyword).dedup.length
      if 0 < dups then [VMsg.duplicateKeywords dups] else []
    else []
  let fb := queries_freq_block t
  if fb.2.2 then
    ({ valid := false, warnings := w1 ++ fb.1,
       errors := e0 ++ [VMsg.validationException VSection.queries],
       records_count := t.rows.length }, t)
  else
    let w3 : List VMsg :=
      if cProductsInQuery ∈ t.cols then
        let z := (t.colVals cProductsInQuery).countP (fun v => decide (v = Val.num 0))
        if 0 < z then [VMsg.zeroProducts z] else []
      else []
    let eb := queries_effective_block t
    if eb.2 then
      ({ valid := false, warnings := w1 ++ fb.1 ++ w3,
         errors := e0 ++ fb.2.1 ++ [VMsg.validationException VSection.queries],
         records_count := t.rows.length }, t)
    else
      ({ valid := (e0 ++ fb.2.1).isEmpty, warnings := w1 ++ fb.1 ++ w3 ++ eb.1,
         errors := e0 ++ fb.2.1, records_count := t.rows.length }, t)

/-- The price-range block of _validate_price_data: the isna counts are zero
in the NaN-free model so the non-numeric errors never fire and dropna
keeps every row; the range comparison and the overlap scan need numeric
columns.  Result: errors, warnings, raised. -/
def price_range_block (t : Table) : List VMsg × List VMsg × Bool :=
  if t.rows.isEmpty then ([], [], false)
  else
    match t.getNumCol cFrom, t.getNumCol cTo with
    | some fs, some ts2 =>
      let inv := (fs.zip ts2).countP (fun p => decide (p.2 ≤ p.1))
      let e1 := if 0 < inv then [VMsg.invalidRanges inv] else []
      let sorted := (fs.zip ts2).insertionSort (fun a b => a.1 ≤ b.1)
      let ovl := (sorted.zip sorted.tail).countP (fun pq => decide (pq.2.1 < pq.1.2))
      (e1, if 0 < ovl then [VMsg.overlappingRanges ovl] else [], false)
    | _, _ => ([], [], true)

/-- The revenue block: zero-equality count first (never raises), then the
negative comparison, which raises on a date-typed column.  Result:
warnings, errors, raised. -/
def price_revenue_block (t : Table) : List VMsg × List VMsg × Bool :=
  let z := (t.colVals cRevenuePerProduct).countP (fun v => decide (v = Val.num 0))
  let wz := if 0 < z then [VMsg.zeroRevenue z] else []
  match t.getNumCol cRevenuePerProduct with
  | none => (wz, [], true)
  | some revs =>
    let negs := revs.countP (fun v => decide (v < 0))
    (wz, if 0 < negs then [VMsg.negativeRevenue negs] else [], false)

def validate_price_data (t : Table) : VResult × Table :=
  let missing := [cFrom, cTo, cRevenuePerProduct].filter (fun c => decide (c ∉ t.cols))
  if ¬ missing.isEmpty then
    ({ valid := false, warnings := [], errors := [VMsg.missingColumns missing],
       records_count := t.rows.length }, t)
  else
    let rb := price_range_block t
    if rb.2.2 then
      ({ valid := false, warnings := [],
         errors := [VMsg.validationException VSection.price],
         records_count := t.rows.length }, t)
    else
      let vb := price_revenue_block t
      if vb.2.2 then
        ({ valid := false, warnings := rb.2.1 ++ vb.1,
           errors := rb.1 ++ [VMsg.validationException VSection.price],
           records_count := t.rows.length }, t)
      else
        if cProducts ∈ t.cols ∧ cProductsWithSales ∈ t.cols then
          match products_consistency_check t with
          | none =>
            ({ valid := false, warnings := rb.2.1 ++ vb.1,
               errors := rb.1 ++ vb.2.1 ++ [VMsg.validationException VSection.price],
               records_count := t.rows.length }, t)
          | some k =>
            let e1 := if 0 < k then [VMsg.inconsistentSegments k] else []
            ({ valid := (rb.1 ++ vb.2.1 ++ e1).isEmpty, warnings := rb.2.1 ++ vb.1,
               errors := rb.1 ++ vb.2.1 ++ e1, records_count := t.rows.length }, t)
        else
          ({ valid := (rb.1 ++ vb.2.1).isEmpty, warnings := rb.2.1 ++ vb.1,
             errors := rb.1 ++ vb.2.1, records_count := t.rows.length }, t)

/-- The date-continuity block of _validate_days_data. -/
def days_date_block (t : Table) : List VMsg × Bool :=
  if cDate ∈ t.cols then
    if t.rows.isEmpty then ([], false)
    else
      match t.getDateCol cDate with
      | none => ([], true)
      | some ds =>
        let sorted := (ds.map PyDate.dayIdx).insertionSort (fun a b => a ≤ b)
        let gaps := (sorted.zip sorted.tail).countP (fun p => decide (1 < p.2 - p.1))
        (if 0 < gaps then [VMsg.dateGaps gaps] else [], false)
  else ([], false)

/-- The stock block: the negative comparison comes first and raises on a
date-typed column; afterwards the zero-stock share.  Result: warnings,
raised. -/
def days_stock_block (t : Table) : List VMsg × Bool :=
  if cStock ∈ t.cols then
    match t.getNumCol cStock with
    | none => ([], true)
    | some vs =>
      let negs := vs.countP (fun v => decide (v < 0))
      let zeros := vs.countP (fun v => decide (v = 0))
      ((if 0 < negs then [VMsg.negativeStock negs] else []) ++
       (if 3 * t.rows.length < 10 * zeros then [VMsg.manyZeroStockDays zeros t.rows.length]
        else []), false)
  else ([], false)

def validate_days_data (t : Table) : VResult × Table :=
  let missing := [cDate, cStock].filter (fun c => decide (c ∉ t.cols))
  let e0 : List VMsg := if missing.isEmpty then [] else [VMsg.missingColumns missing]
  let db := days_date_block t
  if db.2 then
    ({ valid := false, warnings := db.1,
       errors := e0 ++ [VMsg.validationException VSection.days],
       records_count := t.rows.length }, t)
  else
    let sb := days_stock_block t
    if sb.2 then
      ({ valid := false, warnings := db.1 ++ sb.1,
         errors := e0 ++ [VMsg.validationException VSection.days],
         records_count := t.rows.length }, t)
    else
      ({ valid := e0.isEmpty, warnings := db.1 ++ sb.1, errors := e0,
         records_count := t.rows.length }, t)

/-- The final-price block of _validate_products_data: zero-equality count
first, then the raising negative comparison.  Result: warnings, errors,
raised. -/
def products_price_block (t : Table) : List VMsg × List VMsg × Bool :=
  if cFinalPrice ∈ t.cols then
    let z := (t.colVals cFinalPrice).countP (fun v => decide (v = Val.num 0))
    let wz := if 0 < z then [VMsg.zeroPrice z] else []
    match t.getNumCol cFinalPrice with
    | none => (wz, [], true)
    | some vs =>
      let negs := vs.countP (fun v => decide (v < 0))
      (wz, if 0 < negs then [VMsg.negativePrice negs] else [], false)
  else ([], [], false)

/-- The advertising block: the positive comparison raises on a date-typed
column, and the share divides by the row count, raising on an empty
table.  Result: warnings, raised. -/
def products_cpm_block (t : Table) : List VMsg × Bool :=
  if cSearchCpm ∈ t.cols then
    match t.getNumCol cSearchCpm with
    | none => ([], true)
    | some vs =>
      if t.rows.length = 0 then ([], true)
      else
        let pct := ((vs.countP (fun v => decide (0 < v)) : ℚ) / (t.rows.length : ℚ)) * 100
        (if pct < 10 then [VMsg.fewAdsProducts]
         else if 90 < pct then [VMsg.manyAdsProducts]
         else [], false)
  else ([], false)

/-- The category-position block.  Result: warnings, raised. -/
def products_position_block (t : Table) : List VMsg × Bool :=
  if cCatPos ∈ t.cols then
    match t.getNumCol cCatPos with
    | none => ([], true)
    | some ps =>
      let t10 := ps.countP (fun p => decide (p ≤ 10))
      let t100 := ps.countP (fun p => decide (p ≤ 100))
      ((if t10 = 0 then [VMsg.noTop10] else []) ++
       (if t100 < 10 then [VMsg.fewTop100 t100] else []), false)
  else ([], false)

def validate_products_data (t : Table) : VResult × Table :=
  let missing := [cSKU, cFinalPrice, cCatPos].filter (fun c => decide (c ∉ t.cols))
  let e0 : List VMsg := if missing.isEmpty then [] else [VMsg.missingColumns missing]
  let w1 : List VMsg :=
    if cSKU ∈ t.cols then
      let dups := t.rows.length - (t.colVals cSKU).dedup.length
      if 0 < dups then [VMsg.duplicateSku dups] else []
    else []
  let pb := products_price_block t
  if pb.2.2 then
    ({ valid := false, warnings := w1 ++ pb.1,
       errors := e0 ++ [VMsg.validationException VSection.products],
       records_count := t.rows.length }, t)
  else
    let cb := products_cpm_block t
    if cb.2 then
      ({ valid := false, warnings := w1 ++ pb.1,
         errors := e0 ++ pb.2.1 ++ [VMsg.validationException VSection.products],
         records_count := t.rows.length }, t)
    else
      let ob := products_position_block t
      if ob.2 then
        ({ valid := false, warnings := w1 ++ pb.1 ++ cb.1,
           errors := e0 ++ pb.2.1 ++ [VMsg.validationException VSection.products],
           records_count := t.rows.length }, t)
      else
        ({ valid := (e0 ++ pb.2.1).isEmpty, warnings := w1 ++ pb.1 ++ cb.1 ++ ob.1,
           errors := e0 ++ pb.2.1, records_count := t.rows.length }, t)

structure ValidationResults where
  trends : Option VResult
  queries : Option VResult
  price : Option VResult
  days : Option VResult
  products : Option VResult
  deriving DecidableEq

/-- DataValidator.validate_all_data: dispatches per report type and
collects the result dictionaries; the mapping of tables flows through
untouched. -/
def validate_all_data (d : LoadedData) : ValidationResults × LoadedData :=
  ({ trends := d.trends.map (fun t => (validate_trends_data t).1),
     queries := d.queries.map (fun t => (validate_queries_data t).1),
     price := d.price.map (fun t => (validate_price_data t).1),
     days := d.days.map (fun t => (validate_days_data t).1),
     products := d.products.map (fun t => (validate_products_data t).1) },
   { trends := d.trends.map (fun t => (validate_trends_data t).2),
     queries := d.queries.map (fun t => (validate_queries_data t).2),
     price := d.price.map (fun t => (validate_price_data t).2),
     days := d.days.map (fun t => (validate_days_data t).2),
     products := d.products.map (fun t => (validate_products_data t).2) })

/-! The upload-and-score pipeline: FileUploader._process_uploaded_files
stores the processed mapping in the session regardless of the validation
outcome (src/components/file_uploader.py lines 104 to 131), and
app.calculate_scoring hands the stored mapping to the engine unfiltered
(src/app.py lines 189 to 202). -/

structure SessionState where
  loadedData : LoadedData
  validationResults : ValidationResults

def LoadedData.isEmpty (d : LoadedData) : Bool :=
  d.trends.isNone && d.queries.isNone && d.price.isNone && d.days.isNone && d.products.isNone

def process_uploaded_files (loaded : LoadedData) : Option SessionState :=
  if loaded.isEmpty then none
  else some { loadedData := loaded, validationResults := (validate_all_data loaded).1 }

def calculate_scoring (s : SessionState) : ScoringResults :=
  (calculate_total_score s.loadedData).1

/-! Concrete tables used by the closed evaluations below. -/

def emptyTable : Table :=
  { cols := [], rows := [] }

/-- A queries report whose frequency column holds a negative value (a
validation error) while its demand-to-supply coefficient is high. -/
def qRow1 : String → Val := fun c =>
  if c = cFreqWB then Val.num (-1)
  else if c = cCoef then Val.num 5
  else if c = cProductsInQuery then Val.num 1
  else Val.num 0

def queriesBadTable : Table :=
  { cols := [cKeyword, cFreqWB, cProductsInQuery, cCoef], rows := [qRow1] }

def loadedQueriesOnly : LoadedData :=
  { trends := none, queries := some queriesBadTable, price := none, days := none,
    products := none }

/-- A trends report with a well-formed date column and no metric columns. -/
def tRowNa : String → Val := fun c =>
  if c = cMonth then Val.date ⟨2023, 5, 19500⟩ else Val.num 0

def trendsNoMetricsTable : Table :=
  { cols := [cMonth], rows := [tRowNa] }

/-- A two-row trends report with dates and sales only. -/
def tRowM1 : String → Val := fun c =>
  if c = cMonth then Val.date ⟨2023, 3, 19400⟩
  else if c = cSales then Val.num 10
  else Val.num 0

def tRowM2 : String → Val := fun c =>
  if c = cMonth then Val.date ⟨2023, 7, 19520⟩
  else if c = cSales then Val.num 20
  else Val.num 0

def trendsMutTable : Table :=
  { cols := [cMonth, cSales], rows := [tRowM1, tRowM2] }

def loadedTrendsOnly : LoadedData :=
  { trends := some trendsMutTable, queries := none, price := none, days := none,
    products := none }

/-- A products report with both top groups populated whose would-be
price-to-cpm ratios are 5 for the top-10 slice and 3 over 2 for the
top-100 slice. -/
def adsRow1 : String → Val := fun c =>
  if c = cCatPos then Val.num 5
  else if c = cSearchCpm then Val.num 100
  else if c = cFinalPrice then Val.num 500
  else Val.num 0

def adsRow2 : String → Val := fun c =>
  if c = cCatPos then Val.num 50
  else if c = cSearchCpm then Val.num 300
  else if c = cFinalPrice then Val.num 100
  else Val.num 0

def adsExampleTable : Table :=
  { cols := [cCatPos, cSearchCpm, cFinalPrice], rows := [adsRow1, adsRow2] }

/-- A row where products-with-sales exceeds products. -/
def pRowBad : String → Val := fun c =>
  if c = cProductsWithSales then Val.num 5
  else if c = cProducts then Val.num 3
  else Val.num 0

/-- A price report carrying the inconsistency but missing the required
price-range and revenue columns. -/
def priceMissingColsTable : Table :=
  { cols := [cProducts, cProductsWithSales], rows := [pRowBad] }

/-- A trends report carrying the inconsistency. -/
def trendsInconsistentTable : Table :=
  { cols := [cProducts, cProductsWithSales], rows := [pRowBad] }

/-- A complete price report carrying the inconsistency. -/
def pRowFull : String → Val := fun c =>
  if c = cFrom then Val.num 10
  else if c = cTo then Val.num 20
  else if c = cRevenuePerProduct then Val.num 100
  else if c = cProductsWithSales then Val.num 5
  else if c = cProducts then Val.num 3
  else Val.num 0

def priceInconsistentTable : Table :=
  { cols := [cFrom, cTo, cRevenuePerProduct, cProducts, cProductsWithSales],
    rows := [pRowFull] }

/-- A single-year trends report with one metric column. -/
def tRowSy : String → Val := fun c =>
  if c = cMonth then Val.date ⟨2023, 1, 19350⟩
  else if c = cProducts then Val.num 50
  else Val.num 0

def singleYearTrendsTable : Table :=
  { cols := [cMonth, cProducts], rows := [tRowSy] }

/-! Supporting lemmas. -/

lemma listSum_ge {l : List ℚ} {a : ℚ} (h : ∀ x ∈ l, a ≤ x) :
    a * (l.length : ℚ) ≤ l.sum := by
  induction l with
  | nil => simp
  | cons x xs ih =>
    have hx : a ≤ x := h x (by simp)
    have ihh := ih (fun y hy => h y (by simp [hy]))
    simp only [List.sum_cons, List.length_cons]
    push_cast
    nlinarith

lemma listSum_le {l : List ℚ} {b : ℚ} (h : ∀ x ∈ l, x ≤ b) :
    l.sum ≤ b * (l.length : ℚ) := by
  induction l with
  | nil => simp
  | cons x xs ih =>
    have hx : x ≤ b := h x (by simp)
    have ihh := ih (fun y hy => h y (by simp [hy]))
    simp only [List.sum_cons, List.length_cons]
    push_cast
    nlinarith

lemma listMean_bounds {l : List ℚ} {a b : ℚ} (hne : l ≠ [])
    (ha : ∀ x ∈ l, a ≤ x) (hb : ∀ x ∈ l, x ≤ b) :
    a ≤ listMean l ∧ listMean l ≤ b := by
  have hlen : 0 < (l.length : ℚ) := by
    have := List.length_pos.mpr hne
    exact_mod_cast this
  unfold listMean
  constructor
  · rw [le_div_iff₀ hlen]
    exact listSum_ge ha
  · rw [div_le_iff₀ hlen]
    exact listSum_le hb

lemma listMean_const {l : List ℚ} {c : ℚ} (hne : l ≠ []) (h : ∀ x ∈ l, x = c) :
    listMean l = c :=
  le_antisymm (listMean_bounds hne (fun x hx => le_of_eq (h x hx).symm)
      (fun x hx => le_of_eq (h x hx))).2
    (listMean_bounds hne (fun x hx => le_of_eq (h x hx).symm)
      (fun x hx => le_of_eq (h x hx))).1

lemma pyInt_bounds_one_four {q : ℚ} (h1 : 1 ≤ q) (h4 : q ≤ 4) :
    1 ≤ pyInt q ∧ pyInt q ≤ 4 := by
  have h0 : 0 ≤ q := le_trans (by norm_num) h1
  unfold pyInt
  rw [if_pos h0]
  constructor
  · exact Int.le_floor.mpr (by exact_mod_cast h1)
  · have hf : ⌊q⌋ ≤ ⌊(4 : ℚ)⌋ := Int.floor_le_floor h4
    have h44 : ⌊(4 : ℚ)⌋ = 4 := by norm_num
    omega

lemma pyInt_two : pyInt 2 = 2 := by
  unfold pyInt
  norm_num

lemma query_efficiency_score_bounds (p : ℚ) :
    1 ≤ query_efficiency_score p ∧ query_efficiency_score p ≤ 4 := by
  unfold query_efficiency_score
  split_ifs <;> omega

lemma segment_count_score_bounds (n : ℕ) :
    1 ≤ segment_count_score n ∧ segment_count_score n ≤ 4 := by
  unfold segment_count_score
  split_ifs <;> omega

lemma calculate_query_score_cases (t : Table) :
    ((calculate_query_score t).1 = 0 ∧ (calculate_query_score t).2.error ≠ none) ∨
    (1 ≤ (calculate_query_score t).1 ∧ (calculate_query_score t).1 ≤ 4 ∧
      (calculate_query_score t).2.error = none) := by
  unfold calculate_query_score
  split
  · split
    · exact Or.inl (by simp)
    · split
      · split
        · exact Or.inl (by simp)
        · refine Or.inr ?_
          dsimp only
          exact ⟨(query_efficiency_score_bounds _).1, (query_efficiency_score_bounds _).2, rfl⟩
      · exact Or.inl (by simp)
  · exact Or.inl (by simp)

lemma calculate_price_score_cases (t : Table) :
    ((calculate_price_score t).1 = 0 ∧ (calculate_price_score t).2.error ≠ none) ∨
    (1 ≤ (calculate_price_score t).1 ∧ (calculate_price_score t).1 ≤ 4 ∧
      (calculate_price_score t).2.error = none) := by
  unfold calculate_price_score
  split
  · split
    · exact Or.inl (by simp)
    · split
      · exact Or.inl (by simp)
      · split
        · split
          · split
            · exact Or.inl (by simp)
            · exact Or.inr ⟨(segment_count_score_bounds _).1, (segment_count_score_bounds _).2, rfl⟩
          · exact Or.inr ⟨(segment_count_score_bounds _).1, (segment_count_score_bounds _).2, rfl⟩
        · exact Or.inl (by simp)
  · exact Or.inl (by simp)

lemma calculate_stock_score_cases (t : Table) :
    ((calculate_stock_score t).1 = 0 ∧ (calculate_stock_score t).2.1.error ≠ none) ∨
    (1 ≤ (calculate_stock_score t).1 ∧ (calculate_stock_score t).1 ≤ 4 ∧
      (calculate_stock_score t).2.1.error = none) := by
  unfold calculate_stock_score
  split
  · split
    · exact Or.inl (by simp)
    · dsimp only
      split
      · exact Or.inl (by simp)
      · split
        · exact Or.inl (by simp)
        · refine Or.inr ?_
          dsimp only
          refine ⟨?_, ?_, rfl⟩ <;> (split_ifs <;> omega)
  · exact Or.inl (by simp)

lemma calculate_ads_score_zero_with_error (t : Table) :
    (calculate_ads_score t).1 = 0 ∧ (calculate_ads_score t).2.error ≠ none := by
  unfold calculate_ads_score
  split
  · simp
  · dsimp only
    split
    · simp
    · split
      · split <;> simp
      · simp

lemma yoy_score_from_pairs_bounds (pairs : List (ℤ × ℚ)) :
    1 ≤ (yoy_score_from_pairs pairs).1 ∧ (yoy_score_from_pairs pairs).1 ≤ 4 := by
  unfold yoy_score_from_pairs
  dsimp only
  split
  · omega
  · split
    · omega
    · dsimp only
      split_ifs <;> omega

lemma trend_metric_entry_bounds (t2 : Table) (years : List ℤ) (c : String) :
    1 ≤ (trend_metric_entry t2 years c).1 ∧ (trend_metric_entry t2 years c).1 ≤ 4 := by
  unfold trend_metric_entry
  split
  · omega
  · exact yoy_score_from_pairs_bounds _

lemma trend_scores_cast_bounds (t2 : Table) (years : List ℤ) :
    ∀ x ∈ (((trend_contribs t2 years).map (fun p => p.2.1)).map (fun z => ((z : ℤ) : ℚ))),
      1 ≤ x ∧ x ≤ 4 := by
  intro x hx
  rw [List.mem_map] at hx
  obtain ⟨z, hz, rfl⟩ := hx
  rw [List.mem_map] at hz
  obtain ⟨p, hp, rfl⟩ := hz
  unfold trend_contribs at hp
  rw [List.mem_map] at hp
  obtain ⟨c, _, rfl⟩ := hp
  have hb := trend_metric_entry_bounds t2 years c
  constructor
  · show (1 : ℚ) ≤ ((trend_metric_entry t2 years c).1 : ℚ)
    exact_mod_cast hb.1
  · show ((trend_metric_entry t2 years c).1 : ℚ) ≤ 4
    exact_mod_cast hb.2

lemma trend_final_score_bounds (t2 : Table) (years : List ℤ) :
    0 ≤ trend_final_score t2 years ∧ trend_final_score t2 years ≤ 4 := by
  unfold trend_final_score
  dsimp only
  split_ifs with h
  · omega
  · have hne : (((trend_contribs t2 years).map (fun p => p.2.1)).map (fun z => ((z : ℤ) : ℚ))) ≠ [] := by
      intro hc
      rw [List.map_eq_nil_iff] at hc
      rw [hc] at h
      simp at h
    have hbd := trend_scores_cast_bounds t2 years
    have hm := listMean_bounds hne (fun x hx => (hbd x hx).1) (fun x hx => (hbd x hx).2)
    have := pyInt_bounds_one_four hm.1 hm.2
    omega

lemma trend_final_score_pos (t2 : Table) (years : List ℤ)
    (h : trend_contribs t2 years ≠ []) : 1 ≤ trend_final_score t2 years := by
  unfold trend_final_score
  dsimp only
  split_ifs with h2
  · exact absurd (by simpa using h2) h
  · have hne : (((trend_contribs t2 years).map (fun p => p.2.1)).map (fun z => ((z : ℤ) : ℚ))) ≠ [] := by
      simp [List.map_eq_nil_iff, h]
    have hbd := trend_scores_cast_bounds t2 years
    have hm := listMean_bounds hne (fun x hx => (hbd x hx).1) (fun x hx => (hbd x hx).2)
    exact (pyInt_bounds_one_four hm.1 hm.2).1

lemma calculate_trend_score_cases (t : Table) :
    ((calculate_trend_score t).1 = 0 ∧ (calculate_trend_score t).2.1.error ≠ none) ∨
    ((calculate_trend_score t).1 = 0 ∧ (calculate_trend_score t).2.1.error = none ∧
      (calculate_trend_score t).2.1.score_breakdown = []) ∨
    (1 ≤ (calculate_trend_score t).1 ∧ (calculate_trend_score t).1 ≤ 4 ∧
      (calculate_trend_score t).2.1.error = none ∧
      (calculate_trend_score t).2.1.score_breakdown ≠ []) := by
  have hgen : ∀ (t2 : Table) (years : List ℤ) (peaks : List (ℤ × ℤ)),
      ((trend_metrics_part t2 years peaks).1 = 0 ∧
        (trend_metrics_part t2 years peaks).2.1.error ≠ none) ∨
      ((trend_metrics_part t2 years peaks).1 = 0 ∧
        (trend_metrics_part t2 years peaks).2.1.error = none ∧
        (trend_metrics_part t2 years peaks).2.1.score_breakdown = []) ∨
      (1 ≤ (trend_metrics_part t2 years peaks).1 ∧ (trend_metrics_part t2 years peaks).1 ≤ 4 ∧
        (trend_metrics_part t2 years peaks).2.1.error = none ∧
        (trend_metrics_part t2 years peaks).2.1.score_breakdown ≠ []) := by
    intro t2 years peaks
    by_cases hc : trend_contribs t2 years = []
    · refine Or.inr (Or.inl ⟨?_, rfl, ?_⟩)
      · show trend_final_score t2 years = 0
        unfold trend_final_score
        dsimp only
        rw [hc]
        simp
      · show (trend_contribs t2 years).map (fun p => (p.1, p.2.1)) = []
        rw [hc]
        rfl
    · refine Or.inr (Or.inr ⟨trend_final_score_pos t2 years hc,
        (trend_final_score_bounds t2 years).2, rfl, ?_⟩)
      show (trend_contribs t2 years).map (fun p => (p.1, p.2.1)) ≠ []
      simpa using hc
  unfold calculate_trend_score
  split
  · exact Or.inl (by simp)
  · dsimp only
    split
    · split
      · exact Or.inl (by simp)
      · exact hgen _ _ _
    · exact hgen _ _ _

lemma mapOption_length {α β : Type} (f : α → Option β) :
    ∀ (l : List α) (l2 : List β), mapOption f l = some l2 → l2.length = l.length := by
  intro l
  induction l with
  | nil =>
    intro l2 h
    unfold mapOption at h
    cases h
    rfl
  | cons a l ih =>
    intro l2 h
    unfold mapOption at h
    cases hfa : f a with
    | none => rw [hfa] at h; cases h
    | some b =>
      rw [hfa] at h
      cases hml : mapOption f l with
      | none => rw [hml] at h; cases h
      | some bs =>
        rw [hml] at h
        cases h
        simp [ih bs hml]

lemma getNumCol_length {t : Table} {c : String} {vs : List ℚ}
    (h : t.getNumCol c = some vs) : vs.length = t.rows.length := by
  unfold Table.getNumCol at h
  split at h
  · have := mapOption_length Val.asNum? (t.colVals c) vs h
    simpa [Table.colVals] using this
  · cases h

lemma getDateCol_length {t : Table} {c : String} {ds : List PyDate}
    (h : t.getDateCol c = some ds) : ds.length = t.rows.length := by
  unfold Table.getDateCol at h
  split at h
  · have := mapOption_length Val.asDate? (t.colVals c) ds h
    simpa [Table.colVals] using this
  · cases h

lemma mem_setCol_cols_iff (t : Table) (c c2 : String) (vs : List Val) :
    c2 ∈ (t.setCol c vs).cols ↔ (c2 ∈ t.cols ∨ c2 = c) := by
  unfold Table.setCol
  dsimp only
  split_ifs with h
  · constructor
    · exact Or.inl
    · rintro (h2 | rfl)
      · exact h2
      · exact h
  · simp [List.mem_append]

lemma setCol_rows_length (t : Table) (c : String) (vs : List Val)
    (hlen : vs.length = t.rows.length) : (t.setCol c vs).rows.length = t.rows.length := by
  unfold Table.setCol
  simp [hlen]

lemma setCol_colVals_ne (t : Table) (c c2 : String) (vs : List Val)
    (hlen : vs.length = t.rows.length) (hne : c2 ≠ c) :
    (t.setCol c vs).colVals c2 = t.colVals c2 := by
  unfold Table.setCol Table.colVals
  dsimp only
  have aux : ∀ (rs : List (String → Val)) (ws : List Val), ws.length = rs.length →
      ((rs.zip ws).map (fun p => fun c3 => if c3 = c then p.2 else p.1 c3)).map
        (fun r => r c2) = rs.map (fun r => r c2) := by
    intro rs
    induction rs with
    | nil => intro ws _; simp
    | cons r rs ih =>
      intro ws hw
      cases ws with
      | nil => simp at hw
      | cons w ws =>
        have hrec := ih ws (by simpa using hw)
        simp only [List.zip_cons_cons, List.map_cons] at hrec ⊢
        simp [hne, hrec]
  exact aux t.rows vs hlen

lemma getNumCol_setCol_ne (t : Table) (c c2 : String) (vs : List Val)
    (hlen : vs.length = t.rows.length) (hne : c2 ≠ c) :
    (t.setCol c vs).getNumCol c2 = t.getNumCol c2 := by
  unfold Table.getNumCol
  rw [setCol_colVals_ne t c c2 vs hlen hne]
  by_cases h : c2 ∈ t.cols
  · rw [if_pos ((mem_setCol_cols_iff t c c2 vs).mpr (Or.inl h)), if_pos h]
  · rw [if_neg (fun h2 => by
        rcases (mem_setCol_cols_iff t c c2 vs).mp h2 with h3 | h3
        · exact h h3
        · exact hne h3), if_neg h]

lemma filter_mem_setCol (t : Table) (c : String) (vs : List Val) (l : List String)
    (h : c ∉ l) :
    l.filter (fun c2 => decide (c2 ∈ (t.setCol c vs).cols))
      = l.filter (fun c2 => decide (c2 ∈ t.cols)) := by
  apply List.filter_congr
  intro c2 hc2
  have hne : c2 ≠ c := fun he => h (he ▸ hc2)
  simp [mem_setCol_cols_iff, hne]

lemma yoy_score_single_year (pairs : List (ℤ × ℚ))
    (h : ((pairs.map Prod.fst).dedup).length < 2) :
    yoy_score_from_pairs pairs = (2, YoyInfo.insufficientData) := by
  unfold yoy_score_from_pairs
  dsimp only
  rw [if_pos]
  rw [List.length_map, List.length_insertionSort]
  exact h

lemma trend_metrics_part_all_two (t2 : Table) (years : List ℤ) (peaks : List (ℤ × ℤ))
    (hcon : ∀ p ∈ trend_contribs t2 years, p.2 = ((2 : ℤ), YoyInfo.insufficientData))
    (hne : trend_contribs t2 years ≠ []) :
    (∀ e ∈ (trend_metrics_part t2 years peaks).2.1.score_breakdown, e.2 = 2) ∧
    (∀ e ∈ (trend_metrics_part t2 years peaks).2.1.yoy_changes, e.2 = YoyInfo.insufficientData) ∧
    (trend_metrics_part t2 years peaks).1 = 2 := by
  refine ⟨?_, ?_, ?_⟩
  · intro e he
    rw [show (trend_metrics_part t2 years peaks).2.1.score_breakdown
        = (trend_contribs t2 years).map (fun p => (p.1, p.2.1)) from rfl] at he
    rw [List.mem_map] at he
    obtain ⟨p, hp, rfl⟩ := he
    have hp2 := hcon p hp
    show p.2.1 = 2
    rw [hp2]
  · intro e he
    rw [show (trend_metrics_part t2 years peaks).2.1.yoy_changes
        = (trend_contribs t2 years).map (fun p => (p.1, p.2.2)) from rfl] at he
    rw [List.mem_map] at he
    obtain ⟨p, hp, rfl⟩ := he
    have hp2 := hcon p hp
    show p.2.2 = YoyInfo.insufficientData
    rw [hp2]
  · show trend_final_score t2 years = 2
    unfold trend_final_score
    dsimp only
    rw [if_neg (by simpa using hne)]
    have hmean : listMean (((trend_contribs t2 years).map (fun p => p.2.1)).map
        (fun z => ((z : ℤ) : ℚ))) = 2 := by
      apply listMean_const
      · simpa [List.map_eq_nil_iff] using hne
      · intro x hx
        rw [List.mem_map] at hx
        obtain ⟨z, hz, rfl⟩ := hx
        rw [List.mem_map] at hz
        obtain ⟨p, hp, rfl⟩ := hz
        have := hcon p hp
        rw [show p.2.1 = ((2 : ℤ), YoyInfo.insufficientData).1 from by rw [this]]
        norm_num
    rw [hmean, pyInt_two]

lemma calculate_trend_score_of_dates (t : Table) (ds : List PyDate)
    (hd : t.getDateCol cMonth = some ds) :
    calculate_trend_score t =
      (let t2 := (t.setCol cYear (ds.map (fun d => Val.num d.year))).setCol cMonthNum
        (ds.map (fun d => Val.num d.month))
       let years := ds.map PyDate.year
       if cSales ∈ t2.cols then
         match t2.getNumCol cSales with
         | none => (0, ⟨[], [], [], 0, some TErr.exceptionRaised⟩, t2)
         | some sales =>
           trend_metrics_part t2 years (trend_peak_months years (ds.map PyDate.month) sales)
       else trend_metrics_part t2 years []) := by
  unfold calculate_trend_score
  rw [hd]

lemma calculate_trend_score_table_of_dates (t : Table) (ds : List PyDate)
    (hd : t.getDateCol cMonth = some ds) :
    (calculate_trend_score t).2.2 =
      (t.setCol cYear (ds.map (fun d => Val.num d.year))).setCol cMonthNum
        (ds.map (fun d => Val.num d.month)) := by
  rw [calculate_trend_score_of_dates t ds hd]
  dsimp only
  split
  · split <;> rfl
  · rfl

lemma calculate_stock_score_table_of_dates (t : Table) (ds : List PyDate)
    (hboth : cStock ∈ t.cols ∧ cDate ∈ t.cols) (hd : t.getDateCol cDate = some ds) :
    (calculate_stock_score t).2.2 =
      (t.setCol cYear (ds.map (fun d => Val.num d.year))).setCol cMonth
        (ds.map (fun d => Val.num d.month)) := by
  unfold calculate_stock_score
  rw [if_pos hboth, hd]
  dsimp only
  split
  · rfl
  · split <;> rfl

lemma validate_trends_data_table (t : Table) : (validate_trends_data t).2 = t := by
  unfold validate_trends_data
  dsimp only
  split
  · rfl
  · split
    · rfl
    · split
      · split <;> rfl
      · rfl

lemma validate_queries_data_table (t : Table) : (validate_queries_data t).2 = t := by
  unfold validate_queries_data
  dsimp only
  split
  · rfl
  · split
    · rfl
    · rfl

lemma validate_price_data_table (t : Table) : (validate_price_data t).2 = t := by
  unfold validate_price_data
  dsimp only
  split
  · rfl
  · split
    · rfl
    · split
      · rfl
      · split
        · split <;> rfl
        · rfl

lemma validate_days_data_table (t : Table) : (validate_days_data t).2 = t := by
  unfold validate_days_data
  dsimp only
  split
  · rfl
  · split
    · rfl
    · rfl

lemma validate_products_data_table (t : Table) : (validate_products_data t).2 = t := by
  unfold validate_products_data
  dsimp only
  split
  · rfl
  · split
    · rfl
    · split
      · rfl
      · rfl

lemma query_missing_marker (t : Table) (h : cCoef ∉ t.cols) :
    (calculate_query_score t).1 = 0 ∧
    (calculate_query_score t).2.error = some QErr.missingCoefficient := by
  unfold calculate_query_score
  rw [if_neg h]
  exact ⟨rfl, rfl⟩

lemma price_missing_marker (t : Table) (h : cRevenuePerProduct ∉ t.cols) :
    (calculate_price_score t).1 = 0 ∧
    (calculate_price_score t).2.error = some PErr.missingRevenueColumn := by
  unfold calculate_price_score
  rw [if_neg h]
  exact ⟨rfl, rfl⟩

lemma stock_missing_marker (t : Table) (h : ¬(cStock ∈ t.cols ∧ cDate ∈ t.cols)) :
    (calculate_stock_score t).1 = 0 ∧
    (calculate_stock_score t).2.1.error = some SErr.missingColumns := by
  unfold calculate_stock_score
  rw [if_neg h]
  exact ⟨rfl, rfl⟩

lemma trend_baddate_marker (t : Table) (h : t.getDateCol cMonth = none) :
    (calculate_trend_score t).1 = 0 ∧
    (calculate_trend_score t).2.1.error = some TErr.exceptionRaised := by
  unfold calculate_trend_score
  rw [h]
  exact ⟨rfl, rfl⟩

lemma trends_month_block_warning_shapes (t : Table) :
    ∀ m ∈ (trends_month_block t).1, m = VMsg.periodTooShort ∨ m = VMsg.periodTooLong := by
  intro m hm
  unfold trends_month_block at hm
  split at hm
  · split at hm
    · simp at hm
    · split at hm
      · simp at hm
      · dsimp only at hm
        split_ifs at hm <;> simp_all
  · simp at hm

lemma numeric_sanity_warning_shapes (t : Table) (cs : List String) :
    ∀ m ∈ (numeric_sanity_checks t cs).1,
      (∃ c n, m = VMsg.negativeValues c n) ∨ ∃ c, m = VMsg.manyZeros c := by
  induction cs with
  | nil =>
    intro m hm
    unfold numeric_sanity_checks at hm
    simp at hm
  | cons c cs ih =>
    intro m hm
    unfold numeric_sanity_checks at hm
    split at hm
    · split at hm
      · simp at hm
      · dsimp only at hm
        rw [List.mem_append, List.mem_append] at hm
        rcases hm with (hm | hm) | hm
        · split at hm
          · rw [List.mem_singleton] at hm
            exact Or.inl ⟨_, _, hm⟩
          · simp at hm
        · split at hm
          · rw [List.mem_singleton] at hm
            exact Or.inr ⟨_, hm⟩
          · simp at hm
        · exact ih m hm
    · exact ih m hm

lemma price_range_block_warning_shapes (t : Table) :
    ∀ m ∈ (price_range_block t).2.1, ∃ n, m = VMsg.overlappingRanges n := by
  intro m hm
  unfold price_range_block at hm
  split at hm
  · simp at hm
  · split at hm
    · dsimp only at hm
      split_ifs at hm <;> simp_all
    · simp at hm

lemma price_revenue_block_warning_shapes (t : Table) :
    ∀ m ∈ (price_revenue_block t).1, ∃ n, m = VMsg.zeroRevenue n := by
  intro m hm
  unfold price_revenue_block at hm
  dsimp only at hm
  split at hm
  · split_ifs at hm <;> simp_all
  · dsimp only at hm
    split_ifs at hm <;> simp_all

lemma validate_trends_inconsistency (t : Table) (k : ℕ)
    (hmb : (trends_month_block t).2 = false)
    (hnb : (numeric_sanity_checks t [cSales, cRevenue, cProducts, cBrands]).2 = false)
    (hp : cProducts ∈ t.cols) (hpw : cProductsWithSales ∈ t.cols)
    (hk : products_consistency_check t = some k) (hk0 : 0 < k) :
    VMsg.inconsistentProducts k ∈ (validate_trends_data t).1.errors ∧
    (validate_trends_data t).1.valid = false ∧
    ∀ j, VMsg.inconsistentProducts j ∉ (validate_trends_data t).1.warnings := by
  unfold validate_trends_data
  dsimp only
  rw [hmb]
  simp only [Bool.false_eq_true, if_false]
  rw [hnb]
  simp only [Bool.false_eq_true, if_false]
  rw [if_pos ⟨hp, hpw⟩, hk]
  dsimp only
  rw [if_pos hk0]
  refine ⟨?_, ?_, ?_⟩
  · simp
  · simp
  · intro j hj
    rw [List.mem_append] at hj
    rcases hj with hj | hj
    · rcases trends_month_block_warning_shapes t _ hj with h | h <;> simp at h
    · rcases numeric_sanity_warning_shapes t _ _ hj with ⟨c, n, h⟩ | ⟨c, h⟩ <;> simp at h

lemma validate_price_inconsistency (t : Table) (k : ℕ)
    (hFrom : cFrom ∈ t.cols) (hTo : cTo ∈ t.cols) (hRev : cRevenuePerProduct ∈ t.cols)
    (hrb : (price_range_block t).2.2 = false)
    (hvb : (price_revenue_block t).2.2 = false)
    (hp : cProducts ∈ t.cols) (hpw : cProductsWithSales ∈ t.cols)
    (hk : products_consistency_check t = some k) (hk0 : 0 < k) :
    VMsg.inconsistentSegments k ∈ (validate_price_data t).1.errors ∧
    (validate_price_data t).1.valid = false ∧
    ∀ j, VMsg.inconsistentSegments j ∉ (validate_price_data t).1.warnings := by
  have hmiss : ([cFrom, cTo, cRevenuePerProduct].filter (fun c => decide (c ∉ t.cols))) = [] := by
    rw [List.filter_eq_nil_iff]
    intro c hc
    fin_cases hc <;> simp [hFrom, hTo, hRev]
  unfold validate_price_data
  dsimp only
  rw [hmiss]
  simp only [List.isEmpty_nil, not_true, if_false]
  rw [hrb]
  simp only [Bool.false_eq_true, if_false]
  rw [hvb]
  simp only [Bool.false_eq_true, if_false]
  rw [if_pos ⟨hp, hpw⟩, hk]
  dsimp only
  rw [if_pos hk0]
  refine ⟨?_, ?_, ?_⟩
  · simp
  · simp
  · intro j hj
    rw [List.mem_append] at hj
    rcases hj with hj | hj
    · rcases price_range_block_warning_shapes t _ hj with ⟨n, h⟩
      simp at h
    · rcases price_revenue_block_warning_shapes t _ hj with ⟨n, h⟩
      simp at h

/-- Claim C1: for every input mapping of loaded report tables, the total_score
returned by ScoringEngine.calculate_total_score equals exactly the sum of
the five module scores (trend, query, price, stock, ads), and this total
always lies in the range 0 to 20. -/
theorem c1_total_score_sum_and_range (d : LoadedData) :
    ((calculate_total_score d).1).total_score
      = ((calculate_total_score d).1).trend_score + ((calculate_total_score d).1).query_score
        + ((calculate_total_score d).1).price_score + ((calculate_total_score d).1).stock_score
        + ((calculate_total_score d).1).ads_score ∧
    0 ≤ ((calculate_total_score d).1).total_score ∧
    ((calculate_total_score d).1).total_score ≤ 20 := by
  have ht : 0 ≤ ((calculate_total_score d).1).trend_score ∧
      ((calculate_total_score d).1).trend_score ≤ 4 := by
    show 0 ≤ ((d.trends.map calculate_trend_score).map (fun x => x.1)).getD 0 ∧
        ((d.trends.map calculate_trend_score).map (fun x => x.1)).getD 0 ≤ 4
    cases d.trends with
    | none => simp
    | some t =>
      simp only [Option.map_some', Option.getD_some]
      rcases calculate_trend_score_cases t with ⟨h, _⟩ | ⟨h, _, _⟩ | ⟨h1, h2, _, _⟩ <;> omega
  have hq : 0 ≤ ((calculate_total_score d).1).query_score ∧
      ((calculate_total_score d).1).query_score ≤ 4 := by
    show 0 ≤ ((d.queries.map calculate_query_score).map (fun x => x.1)).getD 0 ∧
        ((d.queries.map calculate_query_score).map (fun x => x.1)).getD 0 ≤ 4
    cases d.queries with
    | none => simp
    | some t =>
      simp only [Option.map_some', Option.getD_some]
      rcases calculate_query_score_cases t with ⟨h, _⟩ | ⟨h1, h2, _⟩ <;> omega
  have hp : 0 ≤ ((calculate_total_score d).1).price_score ∧
      ((calculate_total_score d).1).price_score ≤ 4 := by
    show 0 ≤ ((d.price.map calculate_price_score).map (fun x => x.1)).getD 0 ∧
        ((d.price.map calculate_price_score).map (fun x => x.1)).getD 0 ≤ 4
    cases d.price with
    | none => simp
    | some t =>
      simp only [Option.map_some', Option.getD_some]
      rcases calculate_price_score_cases t with ⟨h, _⟩ | ⟨h1, h2, _⟩ <;> omega
  have hs : 0 ≤ ((calculate_total_score d).1).stock_score ∧
      ((calculate_total_score d).1).stock_score ≤ 4 := by
    show 0 ≤ ((d.days.map calculate_stock_score).map (fun x => x.1)).getD 0 ∧
        ((d.days.map calculate_stock_score).map (fun x => x.1)).getD 0 ≤ 4
    cases d.days with
    | none => simp
    | some t =>
      simp only [Option.map_some', Option.getD_some]
      rcases calculate_stock_score_cases t with ⟨h, _⟩ | ⟨h1, h2, _⟩ <;> omega
  have ha : 0 ≤ ((calculate_total_score d).1).ads_score ∧
      ((calculate_total_score d).1).ads_score ≤ 4 := by
    show 0 ≤ ((d.products.map calculate_ads_score).map (fun x => x.1)).getD 0 ∧
        ((d.products.map calculate_ads_score).map (fun x => x.1)).getD 0 ≤ 4
    cases d.products with
    | none => simp
    | some t =>
      simp only [Option.map_some', Option.getD_some]
      have := (calculate_ads_score_zero_with_error t).1
      omega
  have hsum : ((calculate_total_score d).1).total_score
      = ((calculate_total_score d).1).trend_score + ((calculate_total_score d).1).query_score
        + ((calculate_total_score d).1).price_score + ((calculate_total_score d).1).stock_score
        + ((calculate_total_score d).1).ads_score := rfl
  exact ⟨hsum, by omega, by omega⟩

/-- Claim C2: the claim expects the ads module score to be the minimum of the
top-10 and top-100 ratio bucket scores, with the documented example giving
min 4 1 equal to 1; the code instead always returns 0, because line 366
reads the never-assigned name avg_cmp_top10 and the resulting NameError is
caught, zeroing the score.  The theorem shows the score is 0 for every
table, in particular for a table realising the documented example, while
the intended minimum of the bucket scores is 1. -/
theorem c2_ads_score_always_zero :
    (∀ t, (calculate_ads_score t).1 = 0) ∧
    (calculate_ads_score adsExampleTable).1 = 0 ∧
    (calculate_ads_score adsExampleTable).2.error = some AErr.nameErrorAvgCmpTop10 ∧
    min (get_ratio_score 5) (get_ratio_score (3 / 2)) = 1 :=
  ⟨fun t => (calculate_ads_score_zero_with_error t).1, by decide, by decide, by
    have ha : get_ratio_score 5 = 4 := by decide
    have hb : get_ratio_score (3 / 2) = 1 := by decide
    omega⟩

/-- Claim C4: over composite scores 0 to 20, the niche-rating assignment is total
and non-overlapping: poor exactly on scores up to 5 (including the
fallback at 0), average exactly on 6 to 10, good exactly on 11 to 15,
excellent exactly on 16 to 20. -/
theorem c4_niche_rating_partition (n : ℤ) (h0 : 0 ≤ n) (h20 : n ≤ 20) :
    (get_niche_rating n = "poor" ↔ n ≤ 5) ∧
    (get_niche_rating n = "average" ↔ 6 ≤ n ∧ n ≤ 10) ∧
    (get_niche_rating n = "good" ↔ 11 ≤ n ∧ n ≤ 15) ∧
    (get_niche_rating n = "excellent" ↔ 16 ≤ n) := by
  interval_cases n <;> exact ⟨by decide, by decide, by decide, by decide⟩

theorem c4_niche_rating_partition_witness :
    (0 : ℤ) ≤ 0 ∧ (0 : ℤ) ≤ 20 ∧ get_niche_rating 0 = "poor" :=
  ⟨by decide, by decide, (c4_niche_rating_partition 0 (by decide) (by decide)).1.mpr (by decide)⟩

/-- Claim C6: both threshold-to-bucket score functions (the ads ratio buckets of
_get_ratio_score and the query efficiency-percentage buckets) return values
in the set 0 to 4 and are monotonically non-decreasing in their argument. -/
theorem c6_bucket_scores_monotone :
    (∀ r : ℚ, get_ratio_score r ∈ ({0, 1, 2, 3, 4} : Set ℤ)) ∧
    (∀ r1 r2 : ℚ, r1 ≤ r2 → get_ratio_score r1 ≤ get_ratio_score r2) ∧
    (∀ p : ℚ, query_efficiency_score p ∈ ({0, 1, 2, 3, 4} : Set ℤ)) ∧
    (∀ p1 p2 : ℚ, p1 ≤ p2 → query_efficiency_score p1 ≤ query_efficiency_score p2) := by
  refine ⟨?_, ?_, ?_, ?_⟩
  · intro r
    unfold get_ratio_score
    split_ifs <;> simp
  · intro r1 r2 h
    unfold get_ratio_score
    split_ifs <;> first | omega | linarith
  · intro p
    unfold query_efficiency_score
    split_ifs <;> simp
  · intro p1 p2 h
    unfold query_efficiency_score
    split_ifs <;> first | omega | linarith

theorem c6_bucket_scores_monotone_witness :
    get_ratio_score 1 ≤ get_ratio_score 2 ∧
    query_efficiency_score 5 ≤ query_efficiency_score 20 :=
  ⟨c6_bucket_scores_monotone.2.1 1 2 (by norm_num),
   c6_bucket_scores_monotone.2.2.2 5 20 (by norm_num)⟩

/-- Claim C8: DataValidator.validate_all_data leaves every input table unchanged;
it only produces the per-report classification with warning and error
lists. -/
theorem c8_validation_no_mutation (d : LoadedData) : (validate_all_data d).2 = d := by
  rcases d with ⟨a, b, c, e, f⟩
  unfold validate_all_data
  dsimp only
  have h1 : a.map (fun t => (validate_trends_data t).2) = a := by
    cases a <;> simp [validate_trends_data_table]
  have h2 : b.map (fun t => (validate_queries_data t).2) = b := by
    cases b <;> simp [validate_queries_data_table]
  have h3 : c.map (fun t => (validate_price_data t).2) = c := by
    cases c <;> simp [validate_price_data_table]
  have h4 : e.map (fun t => (validate_days_data t).2) = e := by
    cases e <;> simp [validate_days_data_table]
  have h5 : f.map (fun t => (validate_products_data t).2) = f := by
    cases f <;> simp [validate_products_data_table]
  rw [h1, h2, h3, h4, h5]

/-- Claim C3, amended: a module score is 0 exactly when the module could not
compute; a missing required input yields score 0 without a crash, and the
query, price, stock and ads modules record an explicit marker in their
analysis; the trends module records a marker when its date column is
missing or malformed, but records none when the date column is fine and no
metric column exists (score_breakdown empty); any computed score lies in
1 to 4. -/
theorem c3_zero_scores_and_markers :
    (∀ t, ((calculate_query_score t).1 = 0 ↔ (calculate_query_score t).2.error ≠ none) ∧
      (cCoef ∉ t.cols → (calculate_query_score t).1 = 0 ∧
        (calculate_query_score t).2.error = some QErr.missingCoefficient) ∧
      ((calculate_query_score t).1 = 0 ∨
        (1 ≤ (calculate_query_score t).1 ∧ (calculate_query_score t).1 ≤ 4))) ∧
    (∀ t, ((calculate_price_score t).1 = 0 ↔ (calculate_price_score t).2.error ≠ none) ∧
      (cRevenuePerProduct ∉ t.cols → (calculate_price_score t).1 = 0 ∧
        (calculate_price_score t).2.error = some PErr.missingRevenueColumn) ∧
      ((calculate_price_score t).1 = 0 ∨
        (1 ≤ (calculate_price_score t).1 ∧ (calculate_price_score t).1 ≤ 4))) ∧
    (∀ t, ((calculate_stock_score t).1 = 0 ↔ (calculate_stock_score t).2.1.error ≠ none) ∧
      (¬(cStock ∈ t.cols ∧ cDate ∈ t.cols) → (calculate_stock_score t).1 = 0 ∧
        (calculate_stock_score t).2.1.error = some SErr.missingColumns) ∧
      ((calculate_stock_score t).1 = 0 ∨
        (1 ≤ (calculate_stock_score t).1 ∧ (calculate_stock_score t).1 ≤ 4))) ∧
    (∀ t, (calculate_ads_score t).1 = 0 ∧ (calculate_ads_score t).2.error ≠ none) ∧
    (∀ t, (t.getDateCol cMonth = none → (calculate_trend_score t).1 = 0 ∧
        (calculate_trend_score t).2.1.error = some TErr.exceptionRaised) ∧
      ((calculate_trend_score t).1 = 0 ↔
        ((calculate_trend_score t).2.1.error ≠ none ∨
          (calculate_trend_score t).2.1.score_breakdown = [])) ∧
      ((calculate_trend_score t).1 = 0 ∨
        (1 ≤ (calculate_trend_score t).1 ∧ (calculate_trend_score t).1 ≤ 4))) := by
  refine ⟨?_, ?_, ?_, fun t => calculate_ads_score_zero_with_error t, ?_⟩
  · intro t
    rcases calculate_query_score_cases t with ⟨h0, he⟩ | ⟨h1, h4, he⟩
    · exact ⟨iff_of_true h0 he, fun h => query_missing_marker t h, Or.inl h0⟩
    · exact ⟨iff_of_false (by omega) (by simp [he]), fun h => query_missing_marker t h,
        Or.inr ⟨h1, h4⟩⟩
  · intro t
    rcases calculate_price_score_cases t with ⟨h0, he⟩ | ⟨h1, h4, he⟩
    · exact ⟨iff_of_true h0 he, fun h => price_missing_marker t h, Or.inl h0⟩
    · exact ⟨iff_of_false (by omega) (by simp [he]), fun h => price_missing_marker t h,
        Or.inr ⟨h1, h4⟩⟩
  · intro t
    rcases calculate_stock_score_cases t with ⟨h0, he⟩ | ⟨h1, h4, he⟩
    · exact ⟨iff_of_true h0 he, fun h => stock_missing_marker t h, Or.inl h0⟩
    · exact ⟨iff_of_false (by omega) (by simp [he]), fun h => stock_missing_marker t h,
        Or.inr ⟨h1, h4⟩⟩
  · intro t
    rcases calculate_trend_score_cases t with ⟨h0, he⟩ | ⟨h0, he, hb⟩ | ⟨h1, h4, he, hb⟩
    · exact ⟨fun h => trend_baddate_marker t h, iff_of_true h0 (Or.inl he), Or.inl h0⟩
    · exact ⟨fun h => trend_baddate_marker t h, iff_of_true h0 (Or.inr hb), Or.inl h0⟩
    · exact ⟨fun h => trend_baddate_marker t h,
        iff_of_false (by omega) (by simp [he, hb]), Or.inr ⟨h1, h4⟩⟩

theorem c3_zero_scores_and_markers_witness :
    cCoef ∉ emptyTable.cols ∧
    (calculate_query_score emptyTable).1 = 0 ∧
    (calculate_query_score emptyTable).2.error = some QErr.missingCoefficient :=
  ⟨by decide, ((c3_zero_scores_and_markers.1 emptyTable).2.1 (by decide)).1,
    ((c3_zero_scores_and_markers.1 emptyTable).2.1 (by decide)).2⟩

/-- Claim C3 counterexample: a trends table with a well-formed date column and no
metric columns at all (so the metric input the module needs is missing)
gets trend score 0 with no absence marker anywhere in its analysis. -/
theorem c3_counterexample_trends_no_marker :
    trendMetricCols.all (fun c => decide (c ∉ trendsNoMetricsTable.cols)) = true ∧
    (calculate_trend_score trendsNoMetricsTable).1 = 0 ∧
    (calculate_trend_score trendsNoMetricsTable).2.1.error = none := by decide

/-- Claim C5, amended: validation does not gate scoring.  The uploader stores
every processed report in the session regardless of the validation
outcome, and calculate_scoring passes the stored mapping unchanged to
ScoringEngine.calculate_total_score. -/
theorem c5_scoring_not_gated (d : LoadedData) (s : SessionState)
    (h : process_uploaded_files d = some s) :
    s.loadedData = d ∧ s.validationResults = (validate_all_data d).1 ∧
    calculate_scoring s = (calculate_total_score d).1 := by
  unfold process_uploaded_files at h
  split_ifs at h
  cases h
  exact ⟨rfl, rfl, rfl⟩

theorem c5_scoring_not_gated_witness :
    calculate_scoring ⟨loadedQueriesOnly, (validate_all_data loadedQueriesOnly).1⟩
      = (calculate_total_score loadedQueriesOnly).1 :=
  (c5_scoring_not_gated loadedQueriesOnly
    ⟨loadedQueriesOnly, (validate_all_data loadedQueriesOnly).1⟩ rfl).2.2

/-- Claim C5 counterexample: a queries report the validator classifies as
invalid (negative frequency is an error) is still scored, and its module
contributes 4, not 0, to the composite. -/
theorem c5_counterexample_invalid_report_scored :
    ((validate_all_data loadedQueriesOnly).1.queries.map VResult.valid) = some false ∧
    ((process_uploaded_files loadedQueriesOnly).map
      (fun s => (calculate_scoring s).query_score)) = some 4 ∧
    ((calculate_total_score loadedQueriesOnly).1).query_score = 4 ∧
    ((calculate_total_score loadedQueriesOnly).1).total_score = 4 := by decide

/-- Claim C7, amended: when validation reaches the consistency check, a row with
products-with-sales exceeding products is recorded in the errors list (so
the report is invalid) and never in the warnings list; for trends reports
this needs the date and numeric-sanity blocks not to raise, and for price
reports additionally the required columns От, До and revenue-per-product
must be present, since their absence makes _validate_price_data return
early with only a missing-columns error. -/
theorem c7_inconsistency_is_error :
    (∀ t k, (trends_month_block t).2 = false →
      (numeric_sanity_checks t [cSales, cRevenue, cProducts, cBrands]).2 = false →
      cProducts ∈ t.cols → cProductsWithSales ∈ t.cols →
      products_consistency_check t = some k → 0 < k →
      VMsg.inconsistentProducts k ∈ (validate_trends_data t).1.errors ∧
      (validate_trends_data t).1.valid = false ∧
      ∀ j, VMsg.inconsistentProducts j ∉ (validate_trends_data t).1.warnings) ∧
    (∀ t k, cFrom ∈ t.cols → cTo ∈ t.cols → cRevenuePerProduct ∈ t.cols →
      (price_range_block t).2.2 = false → (price_revenue_block t).2.2 = false →
      cProducts ∈ t.cols → cProductsWithSales ∈ t.cols →
      products_consistency_check t = some k → 0 < k →
      VMsg.inconsistentSegments k ∈ (validate_price_data t).1.errors ∧
      (validate_price_data t).1.valid = false ∧
      ∀ j, VMsg.inconsistentSegments j ∉ (validate_price_data t).1.warnings) :=
  ⟨fun t k h1 h2 h3 h4 h5 h6 => validate_trends_inconsistency t k h1 h2 h3 h4 h5 h6,
   fun t k h1 h2 h3 h4 h5 h6 h7 h8 h9 =>
     validate_price_inconsistency t k h1 h2 h3 h4 h5 h6 h7 h8 h9⟩

theorem c7_inconsistency_is_error_witness :
    (VMsg.inconsistentProducts 1 ∈ (validate_trends_data trendsInconsistentTable).1.errors ∧
      (validate_trends_data trendsInconsistentTable).1.valid = false) ∧
    (VMsg.inconsistentSegments 1 ∈ (validate_price_data priceInconsistentTable).1.errors ∧
      (validate_price_data priceInconsistentTable).1.valid = false) :=
  ⟨⟨(c7_inconsistency_is_error.1 trendsInconsistentTable 1 (by decide) (by decide) (by decide)
      (by decide) (by decide) (by decide)).1,
    (c7_inconsistency_is_error.1 trendsInconsistentTable 1 (by decide) (by decide) (by decide)
      (by decide) (by decide) (by decide)).2.1⟩,
   ⟨(c7_inconsistency_is_error.2 priceInconsistentTable 1 (by decide) (by decide) (by decide)
      (by decide) (by decide) (by decide) (by decide) (by decide) (by decide)).1,
    (c7_inconsistency_is_error.2 priceInconsistentTable 1 (by decide) (by decide) (by decide)
      (by decide) (by decide) (by decide) (by decide) (by decide) (by decide)).2.1⟩⟩

/-- Claim C7 counterexample: a price report that contains both product columns
and a row with products-with-sales greater than products, but misses the
required columns, is rejected early: its errors list holds only the
missing-columns message and the inconsistency is never recorded. -/
theorem c7_counterexample_price_early_return :
    cProducts ∈ priceMissingColsTable.cols ∧
    cProductsWithSales ∈ priceMissingColsTable.cols ∧
    products_consistency_check priceMissingColsTable = some 1 ∧
    (validate_price_data priceMissingColsTable).1.errors
      = [VMsg.missingColumns [cFrom, cTo, cRevenuePerProduct]] ∧
    (validate_price_data priceMissingColsTable).1.valid = false := by decide

/-- Claim C9, amended: calculate_total_score leaves the queries, price and
products tables unchanged, but mutates the trends and daily-stock tables
in place: when their date columns parse, the trends table gains the Год
and Месяц_номер columns and the days table gains the Год and Месяц
columns. -/
theorem c9_scoring_mutates_date_tables (d : LoadedData) :
    ((calculate_total_score d).2.queries = d.queries ∧
     (calculate_total_score d).2.price = d.price ∧
     (calculate_total_score d).2.products = d.products) ∧
    (∀ t, d.trends = some t → (calculate_total_score d).2.trends
        = some (calculate_trend_score t).2.2) ∧
    (∀ t, d.days = some t → (calculate_total_score d).2.days
        = some (calculate_stock_score t).2.2) ∧
    (∀ t ds, t.getDateCol cMonth = some ds →
      cYear ∈ ((calculate_trend_score t).2.2).cols ∧
      cMonthNum ∈ ((calculate_trend_score t).2.2).cols) ∧
    (∀ t ds, cStock ∈ t.cols → cDate ∈ t.cols → t.getDateCol cDate = some ds →
      cYear ∈ ((calculate_stock_score t).2.2).cols ∧
      cMonth ∈ ((calculate_stock_score t).2.2).cols) := by
  refine ⟨⟨rfl, rfl, rfl⟩, ?_, ?_, ?_, ?_⟩
  · intro t ht
    show (d.trends.map calculate_trend_score).map (fun x => x.2.2) = _
    rw [ht]
    rfl
  · intro t ht
    show (d.days.map calculate_stock_score).map (fun x => x.2.2) = _
    rw [ht]
    rfl
  · intro t ds hd
    rw [calculate_trend_score_table_of_dates t ds hd]
    constructor
    · exact (mem_setCol_cols_iff _ cMonthNum cYear _).mpr
        (Or.inl ((mem_setCol_cols_iff _ cYear cYear _).mpr (Or.inr rfl)))
    · exact (mem_setCol_cols_iff _ cMonthNum cMonthNum _).mpr (Or.inr rfl)
  · intro t ds h1 h2 hd
    rw [calculate_stock_score_table_of_dates t ds ⟨h1, h2⟩ hd]
    constructor
    · exact (mem_setCol_cols_iff _ cMonth cYear _).mpr
        (Or.inl ((mem_setCol_cols_iff _ cYear cYear _).mpr (Or.inr rfl)))
    · exact (mem_setCol_cols_iff _ cMonth cMonth _).mpr (Or.inr rfl)

theorem c9_scoring_mutates_date_tables_witness :
    cYear ∈ ((calculate_trend_score trendsMutTable).2.2).cols ∧
    cMonthNum ∈ ((calculate_trend_score trendsMutTable).2.2).cols :=
  (c9_scoring_mutates_date_tables loadedTrendsOnly).2.2.2.1 trendsMutTable
    [⟨2023, 3, 19400⟩, ⟨2023, 7, 19520⟩] (by decide)

/-- Claim C9 counterexample: a concrete mapping holding a trends table with only
the date and sales columns comes back from calculate_total_score with the
trends table enlarged by the Год and Месяц_номер columns. -/
theorem c9_counterexample_columns_added :
    (loadedTrendsOnly.trends.map Table.cols) = some [cMonth, cSales] ∧
    ((calculate_total_score loadedTrendsOnly).2.trends.map Table.cols)
      = some [cMonth, cSales, cYear, cMonthNum] ∧
    ([cMonth, cSales] : List String) ≠ [cMonth, cSales, cYear, cMonthNum] := by decide

lemma getNumCol_trend_mutation (t : Table) (ds : List PyDate)
    (hlds : ds.length = t.rows.length) (c : String) (h1 : c ≠ cYear) (h2 : c ≠ cMonthNum) :
    ((t.setCol cYear (ds.map (fun d => Val.num d.year))).setCol cMonthNum
      (ds.map (fun d => Val.num d.month))).getNumCol c = t.getNumCol c := by
  have hylen : (ds.map (fun d => Val.num (d.year : ℚ))).length = t.rows.length := by
    simpa using hlds
  have hrows1 : (t.setCol cYear (ds.map (fun d => Val.num (d.year : ℚ)))).rows.length
      = t.rows.length := setCol_rows_length _ _ _ hylen
  rw [getNumCol_setCol_ne _ cMonthNum c _ (by simp only [List.length_map, hrows1]; exact hlds) h2,
      getNumCol_setCol_ne _ cYear c _ (by simpa using hlds) h1]

lemma trend_mutated_contribs_neutral (t : Table) (ds : List PyDate)
    (hlds : ds.length = t.rows.length)
    (hyr : ((ds.map PyDate.year).dedup).length < 2)
    (hnums : ∀ c ∈ trendMetricCols, c ∈ t.cols → t.getNumCol c ≠ none) :
    ∀ p ∈ trend_contribs
        ((t.setCol cYear (ds.map (fun d => Val.num d.year))).setCol cMonthNum
          (ds.map (fun d => Val.num d.month)))
        (ds.map PyDate.year),
      p.2 = ((2 : ℤ), YoyInfo.insufficientData) := by
  intro p hp
  unfold trend_contribs at hp
  rw [filter_mem_setCol _ cMonthNum _ _ (by decide),
      filter_mem_setCol _ cYear _ _ (by decide), List.mem_map] at hp
  obtain ⟨c, hc, rfl⟩ := hp
  rw [List.mem_filter] at hc
  obtain ⟨hcm, hct⟩ := hc
  have hct2 : c ∈ t.cols := of_decide_eq_true hct
  have hcy : c ≠ cYear := fun he => (by decide : cYear ∉ trendMetricCols) (he ▸ hcm)
  have hcmn : c ≠ cMonthNum := fun he => (by decide : cMonthNum ∉ trendMetricCols) (he ▸ hcm)
  show trend_metric_entry _ _ c = _
  unfold trend_metric_entry
  rw [getNumCol_trend_mutation t ds hlds c hcy hcmn]
  cases hg : t.getNumCol c with
  | none => exact absurd hg (hnums c hcm hct2)
  | some vs =>
    dsimp only
    apply yoy_score_single_year
    have hvl : vs.length = t.rows.length := getNumCol_length hg
    have hmf : ((ds.map PyDate.year).zip vs).map Prod.fst = ds.map PyDate.year :=
      List.map_fst_zip _ _ (by simp [hlds, hvl])
    rw [hmf]
    exact hyr

/-- Claim C10: for every trends table whose rows span fewer than two distinct
years, each per-metric yoy entry is the neutral score 2 with the
insufficient-data message rather than 0, and a single-year trends report
with at least one metric column present (and well-typed columns) yields
trend module score 2. -/
theorem c10_single_year_trend_neutral (t : Table) (ds : List PyDate)
    (hd : t.getDateCol cMonth = some ds)
    (hyr : ((ds.map PyDate.year).dedup).length < 2)
    (hmet : trendMetricCols.filter (fun c => decide (c ∈ t.cols)) ≠ [])
    (hnums : ∀ c ∈ trendMetricCols, c ∈ t.cols → t.getNumCol c ≠ none)
    (hsal : cSales ∈ t.cols → t.getNumCol cSales ≠ none) :
    (∀ e ∈ (calculate_trend_score t).2.1.score_breakdown, e.2 = 2) ∧
    (∀ e ∈ (calculate_trend_score t).2.1.yoy_changes, e.2 = YoyInfo.insufficientData) ∧
    (calculate_trend_score t).1 = 2 := by
  have hlds : ds.length = t.rows.length := getDateCol_length hd
  have hcon := trend_mutated_contribs_neutral t ds hlds hyr hnums
  have hne : trend_contribs
      ((t.setCol cYear (ds.map (fun d => Val.num d.year))).setCol cMonthNum
        (ds.map (fun d => Val.num d.month)))
      (ds.map PyDate.year) ≠ [] := by
    unfold trend_contribs
    rw [filter_mem_setCol _ cMonthNum _ _ (by decide),
        filter_mem_setCol _ cYear _ _ (by decide)]
    intro h
    exact hmet (List.map_eq_nil_iff.mp h)
  rw [calculate_trend_score_of_dates t ds hd]
  dsimp only
  split
  · rename_i hs2
    have hsmem : cSales ∈ t.cols := by
      rcases (mem_setCol_cols_iff _ cMonthNum cSales _).mp hs2 with h | h
      · rcases (mem_setCol_cols_iff _ cYear cSales _).mp h with h2 | h2
        · exact h2
        · exact absurd h2 (by decide)
      · exact absurd h (by decide)
    cases hg : t.getNumCol cSales with
    | none => exact absurd hg (hsal hsmem)
    | some sales =>
      rw [getNumCol_trend_mutation t ds hlds cSales (by decide) (by decide), hg]
      dsimp only
      exact trend_metrics_part_all_two _ _ _ hcon hne
  · exact trend_metrics_part_all_two _ _ [] hcon hne

theorem c10_single_year_trend_neutral_witness :
    (calculate_trend_score singleYearTrendsTable).1 = 2 :=
  (c10_single_year_trend_neutral singleYearTrendsTable [⟨2023, 1, 19350⟩] (by decide)
    (by decide) (by decide) (by decide) (by decide)).2.2
